import Mathlib

/-
Verification of the disaster-management client code
(`app/static/js/main.js`, `app/static/js/map.js`, the dashboard script)
and of the spec-level request-intake service built around it.

JavaScript numbers that actually occur in these code paths are modelled as
rationals (`ℚ`) together with the special values `undefined`, `null` and
`NaN`; strings are Lean `String`s; missing string fields are `Option.none`.
-/

/-- A JavaScript numeric field of a request payload: the property can be
absent (`undef`), `null`, `NaN` (`nan`), or an actual number (`num q`). -/
inductive JNum where
  | undef
  | null
  | nan
  | num (q : ℚ)
  deriving DecidableEq, Repr

/-- JS truthiness of a numeric value: `undefined`, `null`, `NaN` and `0`
are falsy, any other number is truthy. -/
def JNum.truthy : JNum → Bool
  | .num q => q != 0
  | _ => false

/-- The function `isValidLatitude(lat)` of `main.js`:
`!isNaN(lat) && lat >= -90 && lat <= 90`.
JS quirks preserved: `isNaN(undefined)` is true; `isNaN(null)` is false and
`null` compares as `0`, so `null` passes the range check. -/
def isValidLatitude : JNum → Bool
  | .num q => decide (-90 ≤ q) && decide (q ≤ 90)
  | .null => true
  | .undef => false
  | .nan => false

/-- The function `isValidLongitude(lng)` of `main.js`:
`!isNaN(lng) && lng >= -180 && lng <= 180`, with the same JS coercions. -/
def isValidLongitude : JNum → Bool
  | .num q => decide (-180 ≤ q) && decide (q ≤ 180)
  | .null => true
  | .undef => false
  | .nan => false

/-- JS truthiness of an optional string field: absent and `""` are falsy. -/
def strTruthy : Option String → Bool
  | some s => s != ""
  | none => false

/-- Length of an optional string field (`0` when absent; in
`validateRequestData` the length is only read after a truthiness guard). -/
def optLen : Option String → Nat
  | some s => s.length
  | none => 0

/-- The function `isValidPhoneNumber(phone)` of `main.js`, testing the
regex `^[+]?[0-9-\s()]{10,20}$`: an optional leading `+`, then 10 to 20
characters that are digits, `-`, whitespace, `(` or `)`. -/
def isValidPhoneNumber (s : String) : Bool :=
  let r := if s.startsWith "+" then s.drop 1 else s
  decide (10 ≤ r.length) && decide (r.length ≤ 20) &&
    r.all fun c => c.isDigit || c == '-' || c.isWhitespace || c == '(' || c == ')'

/-- The function `isValidEmail(email)` of `main.js`, testing the regex
`^[^\s@]+@[^\s@]+\.[^\s@]+$`: no whitespace anywhere, exactly one `@` with a
nonempty part before it, and after it a `.` that has at least one character
on each side. -/
def isValidEmail (s : String) : Bool :=
  match s.splitOn "@" with
  | [lpart, dpart] =>
    lpart != "" && s.all (fun c => !c.isWhitespace) &&
      decide (3 ≤ dpart.length) && ((dpart.drop 1).dropRight 1).contains '.'
  | _ => false

/-- A candidate request payload as built by `handleFormSubmission` in
`main.js`: string fields are trimmed strings or absent, the numeric
latitude/longitude fields are JS numeric values. -/
structure RequestData where
  title : Option String
  description : Option String
  request_type : Option String
  contact_name : Option String
  contact_phone : Option String
  contact_email : Option String
  address : Option String
  latitude : JNum
  longitude : JNum
  deriving DecidableEq, Repr

/-- The function `validateRequestData(data)` of `main.js`: collects the
error messages, in the order the source pushes them.  Each condition
mirrors the source, including the JS truthiness guards (`!data.title`,
`!data.latitude`, ...) and short-circuiting. -/
def validateRequestData (d : RequestData) : List String :=
  (if !strTruthy d.title || decide (optLen d.title < 5) then
    ["Title must be at least 5 characters long"] else []) ++
  (if !strTruthy d.description || decide (optLen d.description < 10) then
    ["Description must be at least 10 characters long"] else []) ++
  (if !strTruthy d.request_type then
    ["Request type is required"] else []) ++
  (if !strTruthy d.contact_name || decide (optLen d.contact_name < 2) then
    ["Contact name is required"] else []) ++
  (if !strTruthy d.contact_phone || !isValidPhoneNumber (d.contact_phone.getD "") then
    ["Valid phone number is required"] else []) ++
  (if strTruthy d.contact_email && !isValidEmail (d.contact_email.getD "") then
    ["Email address is invalid"] else []) ++
  (if !strTruthy d.address || decide (optLen d.address < 10) then
    ["Detailed address is required"] else []) ++
  (if !d.latitude.truthy || !isValidLatitude d.latitude then
    ["Valid latitude is required"] else []) ++
  (if !d.longitude.truthy || !isValidLongitude d.longitude then
    ["Valid longitude is required"] else [])

/-- The latitude field passes `validateRequestData`: the source condition
for NOT pushing the latitude error, `!(!data.latitude || !isValidLatitude(data.latitude))`. -/
def latitudeAccepted (v : JNum) : Bool := v.truthy && isValidLatitude v

/-- The longitude field passes `validateRequestData`. -/
def longitudeAccepted (v : JNum) : Bool := v.truthy && isValidLongitude v

/-- The four form fields that `handleFormSubmission` coerces numerically. -/
inductive NumField where
  | latitude
  | longitude
  | people_affected
  | estimated_cost
  deriving DecidableEq, Repr

/-- The coercion `parseFloat(value) || (key === 'people_affected' ? 1 : null)`
applied by `handleFormSubmission` in `main.js` to a nonempty form value.
The argument is the `parseFloat` result, `none` standing for `NaN`. -/
def coerceNumericField (k : NumField) (parsed : Option ℚ) : JNum :=
  match parsed with
  | some q =>
    if q = 0 then (if k = NumField.people_affected then .num 1 else .null)
    else .num q
  | none => if k = NumField.people_affected then .num 1 else .null

/-- A relief-request record as the listing API returns it to the dashboard
and map clients (the fields the client scripts read). -/
structure ReqRecord where
  id : Nat
  title : String
  request_type : String
  urgency_level : String
  status : String
  contact_phone : String
  latitude : ℚ
  longitude : ℚ
  created_at : ℚ
  deriving DecidableEq, Repr

/-- The filter selection read from the three map filter dropdowns in
`map.js` (`typeFilter`, `urgencyFilter`, `statusFilter`); an empty string
is the "no selection" value of a dropdown. -/
structure MapFilters where
  request_type : String
  urgency_level : String
  status : String
  deriving DecidableEq, Repr

/-- The cleared filter selection set by `clearFilters` in `map.js`. -/
def MapFilters.empty : MapFilters := ⟨"", "", ""⟩

/-- The filter predicate of `applyFilters` in `map.js`:
`(!filters.request_type || request.request_type === filters.request_type) && ...`;
an empty (falsy) selection imposes no constraint. -/
def matchesFilters (f : MapFilters) (r : ReqRecord) : Bool :=
  (f.request_type == "" || r.request_type == f.request_type) &&
  (f.urgency_level == "" || r.urgency_level == f.urgency_level) &&
  (f.status == "" || r.status == f.status)

/-- The request-related state of the `DisasterReliefMap` controller:
`allRequests`, `filteredRequests` and `currentFilters`. -/
structure MapState where
  allRequests : List ReqRecord
  filteredRequests : List ReqRecord
  currentFilters : MapFilters
  deriving DecidableEq, Repr

/-- The `applyFilters` method of `map.js` as a state transformer: stores
the selection in `currentFilters` and recomputes `filteredRequests` from
`allRequests`; `allRequests` itself is never written. -/
def applyFiltersState (f : MapFilters) (st : MapState) : MapState :=
  { allRequests := st.allRequests
    filteredRequests := st.allRequests.filter (matchesFilters f)
    currentFilters := f }

/-- The `clearFilters` method of `map.js` as a state transformer: resets
`currentFilters` and sets `filteredRequests` to a copy of `allRequests`. -/
def clearFiltersState (st : MapState) : MapState :=
  { allRequests := st.allRequests
    filteredRequests := st.allRequests
    currentFilters := MapFilters.empty }

/-- The urgent count of the dashboard's `calculateStatistics`: requests
whose `urgency_level` is the uppercase `'CRITICAL'` or `'HIGH'`. -/
def dashUrgentCount (l : List ReqRecord) : Nat :=
  (l.filter fun r => r.urgency_level == "CRITICAL" || r.urgency_level == "HIGH").length

/-- The urgent count of the map's `updateStatistics` in `map.js`: requests
whose `urgency_level` is the lowercase `'critical'` or `'high'`. -/
def mapUrgentCount (l : List ReqRecord) : Nat :=
  (l.filter fun r => r.urgency_level == "critical" || r.urgency_level == "high").length

/-- The uppercase urgency enum of the data model
(`LOW, MEDIUM, HIGH, CRITICAL`). -/
def urgencyEnum : List String := ["LOW", "MEDIUM", "HIGH", "CRITICAL"]

/-- The JSON body of a listing response as the dashboard reads it
(`data.requests`, `data.total`, `data.total_pages`, any of which may be
absent). -/
structure ListResponse where
  requests : Option (List ReqRecord)
  total : Option Nat
  total_pages : Option Nat
  deriving DecidableEq, Repr

/-- Outcome of the dashboard's listing fetch: the promise chain threw
(network error or bad JSON), or a response arrived with its `ok` flag and
parsed body.  `loadRequests` throws on a non-ok response, landing in the
same catch block. -/
inductive FetchOutcome where
  | thrown
  | response (ok : Bool) (data : ListResponse)
  deriving DecidableEq, Repr

/-- The dashboard state fields `loadRequests` interacts with. -/
structure DashState where
  requests : List ReqRecord
  currentPage : Nat
  pageSize : Nat
  totalPages : Nat
  deriving DecidableEq, Repr

/-- What the dashboard rendered at the end of `loadRequests`: the request
list (success path) or the error state (catch path). -/
inductive DashRender where
  | renderedList
  | renderedError
  deriving DecidableEq, Repr

/-- JS `v || dflt` for an optional number field: absent and `0` fall back
to the default. -/
def jsOrNat (v : Option Nat) (dflt : Nat) : Nat :=
  match v with
  | some n => if n = 0 then dflt else n
  | none => dflt

/-- JS `data.requests || []` for the optional record list. -/
def jsOrList (v : Option (List ReqRecord)) : List ReqRecord := v.getD []

/-- The `loadRequests` method of the dashboard script as a step function
on the fetch outcome: on success it overwrites `requests` with
`data.requests || []` and `totalPages` with `data.total_pages || 1` and
renders the list; on a thrown fetch or a non-ok response it reaches the
catch block, which only renders the error state. -/
def loadRequestsStep (st : DashState) (o : FetchOutcome) : DashState × DashRender :=
  match o with
  | .thrown => (st, .renderedError)
  | .response ok data =>
    if ok then
      ({ st with
          requests := jsOrList data.requests
          totalPages := jsOrNat data.total_pages 1 },
        .renderedList)
    else (st, .renderedError)

/-- JS `String.prototype.toLowerCase()` on the status strings handled
here: lowercases each character. -/
def jsToLowerCase (s : String) : String := ⟨s.data.map Char.toLower⟩

/-- The dashboard's `createRequestCard` renders the Assign button exactly
when `request.status.toLowerCase() === 'pending'`. -/
def dashboardOffersAssign (status : String) : Bool :=
  jsToLowerCase status == "pending"

/-- The dashboard's `createRequestCard` renders the Mark Complete button
exactly when `request.status.toLowerCase() === 'in_progress'`. -/
def dashboardOffersComplete (status : String) : Bool :=
  jsToLowerCase status == "in_progress"

/-- The map's `createPopupContent` renders the Assign button exactly when
`request.status === 'pending'`. -/
def mapOffersAssign (status : String) : Bool := status == "pending"

/-- The request lifecycle status of the data model. -/
inductive Status where
  | pending
  | in_progress
  | completed
  deriving DecidableEq, Repr

/-- Position of a status along the lifecycle
`pending → in_progress → completed`. -/
def Status.rank : Status → Nat
  | .pending => 0
  | .in_progress => 1
  | .completed => 2

/-- The wire string of a status, as the listing API serialises it. -/
def Status.str : Status → String
  | .pending => "pending"
  | .in_progress => "in_progress"
  | .completed => "completed"

/-- A stored relief request as the Request Store owns it (the fields the
transition operations touch). -/
structure StoreReq where
  id : Nat
  status : Status
  assigned_to : Option String
  assigned_contact : Option String
  created_at : Nat
  updated_at : Nat
  deriving DecidableEq, Repr

/-- The Request Store's error taxonomy for transitions. -/
inductive StoreError where
  | notFound
  | invalidTransition
  deriving DecidableEq, Repr

/-- Modelled from the spec: the Request Store's `assign` operation (§4.2),
whose implementation (`app/crud.py`) is not among the provided sources.
It fails with `InvalidTransitionError` if the status is not `pending`;
otherwise it sets `assigned_to`/`assigned_contact`, status `in_progress`
and `updated_at = now`. -/
def assignReq (r : StoreReq) (assignee_name assignee_contact : String)
    (now : Nat) : Except StoreError StoreReq :=
  if r.status = Status.pending then
    .ok { r with
            status := Status.in_progress
            assigned_to := some assignee_name
            assigned_contact := some assignee_contact
            updated_at := now }
  else .error .invalidTransition

/-- Modelled from the spec: the Request Store's `complete` operation
(§4.2), whose implementation is not among the provided sources.  It fails
with `InvalidTransitionError` if the status is not `in_progress`;
otherwise it sets status `completed` and `updated_at = now`. -/
def completeReq (r : StoreReq) (now : Nat) : Except StoreError StoreReq :=
  if r.status = Status.in_progress then
    .ok { r with status := Status.completed, updated_at := now }
  else .error .invalidTransition

/-- The recognised sort fields of the Query/Filter Engine. -/
inductive SortBy where
  | created_at
  | urgency_level
  | status
  deriving DecidableEq, Repr

/-- The sort directions of the Query/Filter Engine. -/
inductive SortOrder where
  | asc
  | desc
  deriving DecidableEq, Repr

/-- A sort configuration of the Query/Filter Engine. -/
structure SortConfig where
  sort_by : SortBy
  sort_order : SortOrder
  deriving DecidableEq, Repr

/-- Numeric rank of an urgency string for sorting (`LOW < MEDIUM < HIGH <
CRITICAL`; unknown strings rank lowest). -/
def urgencyRank : String → ℚ
  | "MEDIUM" => 1
  | "HIGH" => 2
  | "CRITICAL" => 3
  | _ => 0

/-- Numeric rank of a status string for sorting, following the lifecycle
order (unknown strings rank lowest). -/
def statusStrRank : String → ℚ
  | "in_progress" => 1
  | "completed" => 2
  | _ => 0

/-- The primary sort key a record gets under a sort field. -/
def sortKey (sb : SortBy) (r : ReqRecord) : ℚ :=
  match sb with
  | .created_at => r.created_at
  | .urgency_level => urgencyRank r.urgency_level
  | .status => statusStrRank r.status

/-- The signed primary key of a configuration: descending order negates
the key, the identifier tie-break below stays ascending. -/
def configKey (cfg : SortConfig) (r : ReqRecord) : ℚ :=
  match cfg.sort_order with
  | .asc => sortKey cfg.sort_by r
  | .desc => -(sortKey cfg.sort_by r)

/-- Modelled from the spec: the Query/Filter Engine's total result order
(§4.3) — primary key first, ties broken by identifier ascending for
determinism. -/
def queryLe (k : ReqRecord → ℚ) (a b : ReqRecord) : Prop :=
  k a < k b ∨ (k a = k b ∧ a.id ≤ b.id)

instance (k : ReqRecord → ℚ) : DecidableRel (queryLe k) := fun a b =>
  inferInstanceAs (Decidable (k a < k b ∨ (k a = k b ∧ a.id ≤ b.id)))

instance (k : ReqRecord → ℚ) : IsTotal ReqRecord (queryLe k) where
  total a b := by
    rcases lt_trichotomy (k a) (k b) with h | h | h
    · exact Or.inl (Or.inl h)
    · rcases Nat.le_total a.id b.id with h2 | h2
      · exact Or.inl (Or.inr ⟨h, h2⟩)
      · exact Or.inr (Or.inr ⟨h.symm, h2⟩)
    · exact Or.inr (Or.inl h)

instance (k : ReqRecord → ℚ) : IsTrans ReqRecord (queryLe k) where
  trans a b c hab hbc := by
    rcases hab with h1 | ⟨h1, h1'⟩ <;> rcases hbc with h2 | ⟨h2, h2'⟩
    · exact Or.inl (h1.trans h2)
    · exact Or.inl (h2 ▸ h1)
    · exact Or.inl (h1 ▸ h2)
    · exact Or.inr ⟨h1.trans h2, h1'.trans h2'⟩

/-- Modelled from the spec: the Query/Filter Engine's sorted listing over
a snapshot — sort the matching records by the configuration's key with
identifier tie-break. -/
def queryResults (f : MapFilters) (cfg : SortConfig) (l : List ReqRecord) :
    List ReqRecord :=
  List.insertionSort (queryLe (configKey cfg)) (l.filter (matchesFilters f))

/-- The page a listing call returns: the records of the requested page,
the total matching count and the total page count. -/
structure QueryPage where
  requests : List ReqRecord
  total : Nat
  total_pages : Nat
  deriving DecidableEq, Repr

/-- Modelled from the spec: the Query/Filter Engine's paginated listing
(§4.3, §6), whose server implementation is not among the provided
sources.  It filters, sorts, and returns the page-th slice of size
`pageSize` together with `total` and `total_pages = ceil(total /
pageSize)`. -/
def listRequests (f : MapFilters) (cfg : SortConfig) (page pageSize : Nat)
    (l : List ReqRecord) : QueryPage :=
  let m := queryResults f cfg l
  { requests := (m.drop ((page - 1) * pageSize)).take pageSize
    total := m.length
    total_pages := (m.length + pageSize - 1) / pageSize }

/-- A candidate submission as the Duplicate/Spam Filter sees it. -/
structure Candidate where
  contact_phone : String
  latitude : ℚ
  longitude : ℚ
  deriving DecidableEq, Repr

/-- An already-accepted submission in the store's recent history. -/
structure StoredSubmission where
  id : Nat
  contact_phone : String
  latitude : ℚ
  longitude : ℚ
  created_at : ℚ
  deriving DecidableEq, Repr

/-- The Duplicate/Spam Filter's decision: accept, or reject as a
duplicate of an identified request within the window. -/
inductive FilterDecision where
  | accept
  | duplicateRejected (ofId : Nat)
  deriving DecidableEq, Repr

/-- Modelled from the spec: the Duplicate/Spam Filter's near-duplicate
test (§4.1) — the referenced `app/utils/filters.py` is not among the
provided sources and the spec leaves thresholds configurable, so the
proximity threshold `eps` and the window length are parameters.  A prior
submission is a near-duplicate when the contact phone is identical, both
coordinates are within `eps`, and the prior falls inside the recent
window ending at `now`. -/
def isNearDuplicate (eps window now : ℚ) (cand : Candidate)
    (prior : StoredSubmission) : Bool :=
  prior.contact_phone == cand.contact_phone &&
  decide (|cand.latitude - prior.latitude| ≤ eps) &&
  decide (|cand.longitude - prior.longitude| ≤ eps) &&
  decide (now - prior.created_at ≤ window)

/-- Modelled from the spec: the Duplicate/Spam Filter's decision function
(§4.1): scan the recent history for a near-duplicate; reject naming the
conflicting request, otherwise accept.  It reads the history and mutates
nothing. -/
def duplicateFilter (eps window now : ℚ) (history : List StoredSubmission)
    (cand : Candidate) : FilterDecision :=
  match history.find? (isNearDuplicate eps window now cand) with
  | some p => .duplicateRejected p.id
  | none => .accept

/-- A concrete payload whose latitude (200) is out of range, used to
instantiate the validation theorems. -/
def sampleBadLatData : RequestData :=
  { title := some "Need food now"
    description := some "Family of 4 stranded"
    request_type := some "FOOD"
    contact_name := some "Asha"
    contact_phone := some "+91-9999999999"
    contact_email := none
    address := some "Near XYZ bridge, sector 5"
    latitude := JNum.num 200
    longitude := JNum.num 72 }

/-- A concrete stored record in `pending` state. -/
def samplePendingReq : StoreReq :=
  { id := 7
    status := Status.pending
    assigned_to := none
    assigned_contact := none
    created_at := 100
    updated_at := 100 }

/-- A concrete dashboard record with uppercase urgency `CRITICAL`. -/
def sampleRecCritical : ReqRecord :=
  { id := 1
    title := "Need rescue"
    request_type := "RESCUE"
    urgency_level := "CRITICAL"
    status := "pending"
    contact_phone := "+91-9999999999"
    latitude := 19
    longitude := 72
    created_at := 50 }

/-- A concrete dashboard record with uppercase urgency `LOW`. -/
def sampleRecLow : ReqRecord :=
  { id := 2
    title := "Need blankets"
    request_type := "CLOTHING"
    urgency_level := "LOW"
    status := "in_progress"
    contact_phone := "+91-8888888888"
    latitude := 20
    longitude := 73
    created_at := 60 }

/-- Twenty-five copies of a record, a concrete 25-record snapshot. -/
def sample25 : List ReqRecord := List.replicate 25 sampleRecLow

/-- A concrete accepted submission for the duplicate-filter history. -/
def samplePriorSubmission : StoredSubmission :=
  { id := 3
    contact_phone := "+91-9999999999"
    latitude := 19
    longitude := 72
    created_at := 1000 }

/-- A concrete candidate nearly identical to `samplePriorSubmission`. -/
def sampleDupCandidate : Candidate :=
  { contact_phone := "+91-9999999999"
    latitude := 19 + 1 / 10000
    longitude := 72 - 1 / 10000 }

/-- C1 (counterexample): the claim says the latitude field is accepted
exactly when it parses to a number in `[-90, 90]`; the payload value `0`
is such a number, yet `validateRequestData`'s truthiness guard
`!data.latitude` rejects it. -/
theorem latitude_zero_refutes_range_only_validation :
    ¬ (latitudeAccepted (JNum.num 0) = true ↔
        ∃ q : ℚ, JNum.num 0 = JNum.num q ∧ -90 ≤ q ∧ q ≤ 90) := by
  intro h
  have h0 : latitudeAccepted (JNum.num 0) = true :=
    h.mpr ⟨0, rfl, by norm_num, by norm_num⟩
  simp [latitudeAccepted, JNum.truthy] at h0

/-- C1 (amended): input validation accepts the latitude field exactly when
it is a nonzero number in `[-90, 90]`, and the longitude field exactly
when it is a nonzero number in `[-180, 180]` (zero, like a missing or
unparseable coordinate, is falsy and rejected by the truthiness guard);
whenever a coordinate is rejected, `validateRequestData` reports the
error for that field and the payload is invalid. -/
theorem coordinate_validation_accepts_truthy_in_range (v : JNum) (d : RequestData) :
    (latitudeAccepted v = true ↔
      ∃ q : ℚ, v = JNum.num q ∧ q ≠ 0 ∧ -90 ≤ q ∧ q ≤ 90) ∧
    (longitudeAccepted v = true ↔
      ∃ q : ℚ, v = JNum.num q ∧ q ≠ 0 ∧ -180 ≤ q ∧ q ≤ 180) ∧
    (latitudeAccepted d.latitude = false →
      "Valid latitude is required" ∈ validateRequestData d ∧
        validateRequestData d ≠ []) ∧
    (longitudeAccepted d.longitude = false →
      "Valid longitude is required" ∈ validateRequestData d ∧
        validateRequestData d ≠ []) := by
  refine ⟨?_, ?_, ?_, ?_⟩
  · cases v with
    | num q => simp [latitudeAccepted, JNum.truthy, isValidLatitude, and_assoc]
    | undef => simp [latitudeAccepted, JNum.truthy]
    | null => simp [latitudeAccepted, JNum.truthy]
    | nan => simp [latitudeAccepted, JNum.truthy]
  · cases v with
    | num q => simp [longitudeAccepted, JNum.truthy, isValidLongitude, and_assoc]
    | undef => simp [longitudeAccepted, JNum.truthy]
    | null => simp [longitudeAccepted, JNum.truthy]
    | nan => simp [longitudeAccepted, JNum.truthy]
  · intro h
    have hc : (!d.latitude.truthy || !isValidLatitude d.latitude) = true := by
      have := congrArg (fun b => !b) h
      simpa [latitudeAccepted] using this
    have hm : "Valid latitude is required" ∈ validateRequestData d := by
      simp only [validateRequestData, hc, if_true, List.mem_append]
      simp
    exact ⟨hm, List.ne_nil_of_mem hm⟩
  · intro h
    have hc : (!d.longitude.truthy || !isValidLongitude d.longitude) = true := by
      have := congrArg (fun b => !b) h
      simpa [longitudeAccepted] using this
    have hm : "Valid longitude is required" ∈ validateRequestData d := by
      simp only [validateRequestData, hc, if_true, List.mem_append]
      simp
    exact ⟨hm, List.ne_nil_of_mem hm⟩

/-- C1 witness: on the concrete payload `sampleBadLatData` (latitude 200)
the latitude field is rejected, the latitude error is reported and the
payload is invalid. -/
theorem coordinate_validation_accepts_truthy_in_range_witness :
    "Valid latitude is required" ∈ validateRequestData sampleBadLatData ∧
      validateRequestData sampleBadLatData ≠ [] :=
  (coordinate_validation_accepts_truthy_in_range (JNum.num 200)
    sampleBadLatData).2.2.1 (by decide)

/-- C8 (confirmed): `handleFormSubmission` coerces a nonempty numeric form
field through `parseFloat(value) || fallback`: when the value parses to
`NaN` or `0`, `people_affected` falls back to `1` and the other three
fields fall back to `null`; any other parsed number is kept.  In
particular a latitude entered as `"0"` is submitted as `null`, not `0`. -/
theorem numeric_coercion_fallbacks (parsed : Option ℚ) :
    ((parsed = none ∨ parsed = some 0) →
      coerceNumericField NumField.people_affected parsed = JNum.num 1 ∧
        ∀ k, k ≠ NumField.people_affected →
          coerceNumericField k parsed = JNum.null) ∧
    (∀ q : ℚ, q ≠ 0 → parsed = some q →
      ∀ k, coerceNumericField k parsed = JNum.num q) ∧
    coerceNumericField NumField.latitude (some 0) = JNum.null := by
  refine ⟨?_, ?_, by decide⟩
  · rintro (rfl | rfl)
    · exact ⟨rfl, by rintro k hk; cases k <;> simp_all [coerceNumericField]⟩
    · exact ⟨rfl, by rintro k hk; cases k <;> simp_all [coerceNumericField]⟩
  · rintro q hq rfl k
    simp [coerceNumericField, hq]

/-- C8 witness: concrete instances — a `people_affected` parsing to `0`
becomes `1`, and a latitude parsing to `0` becomes `null`. -/
theorem numeric_coercion_fallbacks_witness :
    coerceNumericField NumField.people_affected (some 0) = JNum.num 1 ∧
      coerceNumericField NumField.latitude (some 0) = JNum.null :=
  ⟨((numeric_coercion_fallbacks (some 0)).1 (Or.inr rfl)).1,
    (numeric_coercion_fallbacks (some 0)).2.2⟩

/-- C3 (confirmed): `applyFilters` keeps exactly the requests that agree
with every provided (nonempty) filter selection; an empty selection
imposes no constraint, and with all three selections empty the filtered
view is the whole list. -/
theorem apply_filters_characterisation (f : MapFilters) (st : MapState) :
    (∀ r, r ∈ (applyFiltersState f st).filteredRequests ↔
      r ∈ st.allRequests ∧
      (f.request_type ≠ "" → r.request_type = f.request_type) ∧
      (f.urgency_level ≠ "" → r.urgency_level = f.urgency_level) ∧
      (f.status ≠ "" → r.status = f.status)) ∧
    (applyFiltersState MapFilters.empty st).filteredRequests = st.allRequests := by
  constructor
  · intro r
    simp only [applyFiltersState, List.mem_filter, matchesFilters,
      Bool.and_eq_true, Bool.or_eq_true, beq_iff_eq]
    constructor
    · rintro ⟨hmem, ⟨h1, h2⟩, h3⟩
      exact ⟨hmem, fun h => (h1.resolve_left h), fun h => (h2.resolve_left h),
        fun h => (h3.resolve_left h)⟩
    · rintro ⟨hmem, h1, h2, h3⟩
      refine ⟨hmem, ⟨?_, ?_⟩, ?_⟩
      · by_cases hf : f.request_type = ""
        · exact Or.inl hf
        · exact Or.inr (h1 hf)
      · by_cases hf : f.urgency_level = ""
        · exact Or.inl hf
        · exact Or.inr (h2 hf)
      · by_cases hf : f.status = ""
        · exact Or.inl hf
        · exact Or.inr (h3 hf)
  · simp only [applyFiltersState]
    exact List.filter_eq_self.mpr fun r _ => by simp [matchesFilters, MapFilters.empty]

/-- C3 witness: with the concrete selection `urgency_level = "LOW"` over a
two-record list, the filtered view holds exactly the `LOW` record, and the
empty selection returns the whole list. -/
theorem apply_filters_characterisation_witness :
    (sampleRecLow ∈ (applyFiltersState ⟨"", "LOW", ""⟩
        ⟨[sampleRecCritical, sampleRecLow], [], MapFilters.empty⟩).filteredRequests ↔
      sampleRecLow ∈ [sampleRecCritical, sampleRecLow] ∧
      ((("" : String) ≠ "") → sampleRecLow.request_type = "") ∧
      (("LOW" : String) ≠ "" → sampleRecLow.urgency_level = "LOW") ∧
      ((("" : String) ≠ "") → sampleRecLow.status = "")) ∧
    (applyFiltersState MapFilters.empty
        ⟨[sampleRecCritical, sampleRecLow], [], MapFilters.empty⟩).filteredRequests =
      [sampleRecCritical, sampleRecLow] :=
  ⟨(apply_filters_characterisation ⟨"", "LOW", ""⟩
      ⟨[sampleRecCritical, sampleRecLow], [], MapFilters.empty⟩).1 sampleRecLow,
    (apply_filters_characterisation MapFilters.empty
      ⟨[sampleRecCritical, sampleRecLow], [], MapFilters.empty⟩).2⟩

/-- C7 (confirmed): `applyFilters` and `clearFilters` never touch the
stored request data — the `allRequests` list (and so each record in it)
is exactly the one held before, the filtered view is drawn from it
without modification, and only `filteredRequests` and `currentFilters`
are replaced. -/
theorem filters_do_not_mutate_requests (f : MapFilters) (st : MapState) :
    (applyFiltersState f st).allRequests = st.allRequests ∧
    (clearFiltersState st).allRequests = st.allRequests ∧
    (∀ r, r ∈ (applyFiltersState f st).filteredRequests → r ∈ st.allRequests) ∧
    (applyFiltersState f st).currentFilters = f ∧
    (clearFiltersState st).currentFilters = MapFilters.empty :=
  ⟨rfl, rfl, fun _ h => List.mem_of_mem_filter h, rfl, rfl⟩

/-- C7 witness: the frame property at a concrete state and selection. -/
theorem filters_do_not_mutate_requests_witness :
    (applyFiltersState ⟨"FOOD", "", ""⟩
        ⟨[sampleRecCritical], [sampleRecCritical], MapFilters.empty⟩).allRequests =
      [sampleRecCritical] ∧
    (clearFiltersState
        ⟨[sampleRecCritical], [sampleRecCritical], MapFilters.empty⟩).allRequests =
      [sampleRecCritical] ∧
    (∀ r, r ∈ (applyFiltersState ⟨"FOOD", "", ""⟩
        ⟨[sampleRecCritical], [sampleRecCritical], MapFilters.empty⟩).filteredRequests →
      r ∈ [sampleRecCritical]) ∧
    (applyFiltersState ⟨"FOOD", "", ""⟩
        ⟨[sampleRecCritical], [sampleRecCritical], MapFilters.empty⟩).currentFilters =
      ⟨"FOOD", "", ""⟩ ∧
    (clearFiltersState
        ⟨[sampleRecCritical], [sampleRecCritical], MapFilters.empty⟩).currentFilters =
      MapFilters.empty :=
  filters_do_not_mutate_requests ⟨"FOOD", "", ""⟩
    ⟨[sampleRecCritical], [sampleRecCritical], MapFilters.empty⟩

/-- C9 (confirmed): the dashboard's urgent statistic counts requests whose
`urgency_level` is exactly the uppercase `'CRITICAL'` or `'HIGH'`, the
map's urgent statistic counts exactly the lowercase `'critical'` or
`'high'`, and on any list drawn from the uppercase enum
`{LOW, MEDIUM, HIGH, CRITICAL}` the map's count is `0`. -/
theorem urgent_count_case_mismatch (l : List ReqRecord) :
    dashUrgentCount l =
      l.countP (fun r => r.urgency_level == "CRITICAL" || r.urgency_level == "HIGH") ∧
    mapUrgentCount l =
      l.countP (fun r => r.urgency_level == "critical" || r.urgency_level == "high") ∧
    ((∀ r ∈ l, r.urgency_level ∈ urgencyEnum) → mapUrgentCount l = 0) := by
  refine ⟨(List.countP_eq_length_filter _ l).symm,
    (List.countP_eq_length_filter _ l).symm, ?_⟩
  intro h
  have : l.filter (fun r => r.urgency_level == "critical" || r.urgency_level == "high") = [] := by
    refine List.filter_eq_nil_iff.mpr fun r hr => ?_
    have hu := h r hr
    simp only [urgencyEnum, List.mem_cons, List.not_mem_nil, or_false] at hu
    rcases hu with hu | hu | hu | hu <;> simp [hu]
  simp [mapUrgentCount, this]

/-- C9 witness: on a concrete list with urgencies `CRITICAL` and `LOW`
(both uppercase), the map's urgent count is `0`. -/
theorem urgent_count_case_mismatch_witness :
    mapUrgentCount [sampleRecCritical, sampleRecLow] = 0 :=
  (urgent_count_case_mismatch [sampleRecCritical, sampleRecLow]).2.2 (by decide)

/-- C10 (confirmed): when the listing fetch throws or returns a non-ok
response, the dashboard's `loadRequests` leaves `requests`, `totalPages`
and `currentPage` exactly as they were and only renders the error
state. -/
theorem load_requests_error_is_atomic (st : DashState) (o : FetchOutcome)
    (h : o = FetchOutcome.thrown ∨ ∃ d, o = FetchOutcome.response false d) :
    (loadRequestsStep st o).1.requests = st.requests ∧
    (loadRequestsStep st o).1.totalPages = st.totalPages ∧
    (loadRequestsStep st o).1.currentPage = st.currentPage ∧
    (loadRequestsStep st o).2 = DashRender.renderedError := by
  rcases h with rfl | ⟨d, rfl⟩ <;> simp [loadRequestsStep]

/-- C10 witness: a thrown fetch over a concrete dashboard state leaves
every listed field unchanged and renders the error state. -/
theorem load_requests_error_is_atomic_witness :
    (loadRequestsStep ⟨[sampleRecLow], 2, 10, 3⟩ FetchOutcome.thrown).1.requests =
      [sampleRecLow] ∧
    (loadRequestsStep ⟨[sampleRecLow], 2, 10, 3⟩ FetchOutcome.thrown).1.totalPages = 3 ∧
    (loadRequestsStep ⟨[sampleRecLow], 2, 10, 3⟩ FetchOutcome.thrown).1.currentPage = 2 ∧
    (loadRequestsStep ⟨[sampleRecLow], 2, 10, 3⟩ FetchOutcome.thrown).2 =
      DashRender.renderedError :=
  load_requests_error_is_atomic ⟨[sampleRecLow], 2, 10, 3⟩ FetchOutcome.thrown
    (Or.inl rfl)

/-- C2 (confirmed): status moves only forward — a successful `assign`
takes `pending` to `in_progress` and a successful `complete` takes
`in_progress` to `completed`, each strictly increasing the lifecycle
rank, and any other starting status yields `InvalidTransitionError`;
on the clients, the dashboard offers Assign exactly on (case-folded)
`pending` and Mark Complete exactly on `in_progress`, and the map offers
Assign exactly on `pending`. -/
theorem lifecycle_monotonic_and_actions_gated (r r2 : StoreReq)
    (n c : String) (t : Nat) (s : Status) :
    (assignReq r n c t = .ok r2 →
      r.status = Status.pending ∧ r2.status = Status.in_progress ∧
        r.status.rank < r2.status.rank) ∧
    (completeReq r t = .ok r2 →
      r.status = Status.in_progress ∧ r2.status = Status.completed ∧
        r.status.rank < r2.status.rank) ∧
    (assignReq r n c t = .error StoreError.invalidTransition ↔
      r.status ≠ Status.pending) ∧
    (completeReq r t = .error StoreError.invalidTransition ↔
      r.status ≠ Status.in_progress) ∧
    (dashboardOffersAssign s.str = true ↔ s = Status.pending) ∧
    (dashboardOffersComplete s.str = true ↔ s = Status.in_progress) ∧
    (mapOffersAssign s.str = true ↔ s = Status.pending) := by
  refine ⟨?_, ?_, ?_, ?_, ?_, ?_, ?_⟩
  · intro h
    by_cases hp : r.status = Status.pending
    · simp only [assignReq, hp, if_true, Except.ok.injEq] at h
      subst h
      exact ⟨hp, rfl, by simp [hp, Status.rank]⟩
    · simp [assignReq, hp] at h
  · intro h
    by_cases hp : r.status = Status.in_progress
    · simp only [completeReq, hp, if_true, Except.ok.injEq] at h
      subst h
      exact ⟨hp, rfl, by simp [hp, Status.rank]⟩
    · simp [completeReq, hp] at h
  · by_cases hp : r.status = Status.pending <;> simp [assignReq, hp]
  · by_cases hp : r.status = Status.in_progress <;> simp [completeReq, hp]
  · cases s <;> decide
  · cases s <;> decide
  · cases s <;> decide

/-- C2 witness: assigning the concrete pending request succeeds into
`in_progress` with a strictly larger rank, and the dashboard offers
Assign on `pending`. -/
theorem lifecycle_monotonic_and_actions_gated_witness :
    (samplePendingReq.status = Status.pending ∧
      (⟨7, Status.in_progress, some "NGO A", some "+91-8888888888", 100, 200⟩ :
        StoreReq).status = Status.in_progress ∧
      samplePendingReq.status.rank <
        (⟨7, Status.in_progress, some "NGO A", some "+91-8888888888", 100, 200⟩ :
          StoreReq).status.rank) ∧
    (dashboardOffersAssign Status.pending.str = true ↔
      Status.pending = Status.pending) :=
  ⟨(lifecycle_monotonic_and_actions_gated samplePendingReq
      ⟨7, Status.in_progress, some "NGO A", some "+91-8888888888", 100, 200⟩
      "NGO A" "+91-8888888888" 200 Status.pending).1 rfl,
    (lifecycle_monotonic_and_actions_gated samplePendingReq
      ⟨7, Status.in_progress, some "NGO A", some "+91-8888888888", 100, 200⟩
      "NGO A" "+91-8888888888" 200 Status.pending).2.2.2.2.1⟩

/-- C6 (confirmed): query evaluation is deterministic — over equal
snapshots the same filter/sort configuration yields the same list, the
result is sorted by the configuration's total order, it is a permutation
of the matching records, and any two positions with equal sort keys are
in ascending identifier order. -/
theorem query_results_deterministic (f : MapFilters) (cfg : SortConfig)
    (l1 l2 : List ReqRecord) (h : l1 = l2) :
    queryResults f cfg l1 = queryResults f cfg l2 ∧
    List.Sorted (queryLe (configKey cfg)) (queryResults f cfg l1) ∧
    (queryResults f cfg l1).Perm (l1.filter (matchesFilters f)) ∧
    List.Pairwise (fun a b => configKey cfg a = configKey cfg b → a.id ≤ b.id)
      (queryResults f cfg l1) := by
  subst h
  refine ⟨rfl, List.sorted_insertionSort _ _, List.perm_insertionSort _ _, ?_⟩
  refine List.Pairwise.imp ?_ (List.sorted_insertionSort _ _)
  intro a b hab heq
  rcases hab with hlt | ⟨_, hle⟩
  · exact absurd (heq ▸ hlt) (lt_irrefl _)
  · exact hle

/-- C6 witness: the determinism, sortedness, permutation and tie-break
facts at a concrete two-record snapshot sorted by urgency descending. -/
theorem query_results_deterministic_witness :
    queryResults MapFilters.empty ⟨SortBy.urgency_level, SortOrder.desc⟩
        [sampleRecCritical, sampleRecLow] =
      queryResults MapFilters.empty ⟨SortBy.urgency_level, SortOrder.desc⟩
        [sampleRecCritical, sampleRecLow] ∧
    List.Sorted (queryLe (configKey ⟨SortBy.urgency_level, SortOrder.desc⟩))
      (queryResults MapFilters.empty ⟨SortBy.urgency_level, SortOrder.desc⟩
        [sampleRecCritical, sampleRecLow]) ∧
    (queryResults MapFilters.empty ⟨SortBy.urgency_level, SortOrder.desc⟩
        [sampleRecCritical, sampleRecLow]).Perm
      ([sampleRecCritical, sampleRecLow].filter (matchesFilters MapFilters.empty)) ∧
    List.Pairwise
      (fun a b => configKey ⟨SortBy.urgency_level, SortOrder.desc⟩ a =
        configKey ⟨SortBy.urgency_level, SortOrder.desc⟩ b → a.id ≤ b.id)
      (queryResults MapFilters.empty ⟨SortBy.urgency_level, SortOrder.desc⟩
        [sampleRecCritical, sampleRecLow]) :=
  query_results_deterministic MapFilters.empty ⟨SortBy.urgency_level, SortOrder.desc⟩
    [sampleRecCritical, sampleRecLow] [sampleRecCritical, sampleRecLow] rfl

/-- C4 (confirmed): a listing call returns a page of matching records
together with the total matching count and
`total_pages = ceil(total / page_size)` (stated via `⌈/⌉` and by the two
ceiling bounds); in particular `page = 2`, `page_size = 10` over 25
matching records returns 10 records, `total = 25` and `total_pages = 3`. -/
theorem listing_pagination_spec (f : MapFilters) (cfg : SortConfig)
    (page pageSize : Nat) (l : List ReqRecord) (hs : 0 < pageSize) :
    (listRequests f cfg page pageSize l).total =
      (l.filter (matchesFilters f)).length ∧
    (listRequests f cfg page pageSize l).total_pages =
      (listRequests f cfg page pageSize l).total ⌈/⌉ pageSize ∧
    (listRequests f cfg page pageSize l).total ≤
      pageSize * (listRequests f cfg page pageSize l).total_pages ∧
    (listRequests f cfg page pageSize l).total_pages * pageSize <
      (listRequests f cfg page pageSize l).total + pageSize ∧
    (∀ r ∈ (listRequests f cfg page pageSize l).requests,
      r ∈ l.filter (matchesFilters f)) ∧
    ((l.filter (matchesFilters f)).length = 25 →
      (listRequests f cfg 2 10 l).requests.length = 10 ∧
      (listRequests f cfg 2 10 l).total = 25 ∧
      (listRequests f cfg 2 10 l).total_pages = 3) := by
  have hlen : (queryResults f cfg l).length = (l.filter (matchesFilters f)).length :=
    (List.perm_insertionSort _ _).length_eq
  refine ⟨?_, rfl, ?_, ?_, ?_, ?_⟩
  · simpa [listRequests] using hlen
  · have h1 : (queryResults f cfg l).length ≤
        pageSize • ((queryResults f cfg l).length ⌈/⌉ pageSize) :=
      le_smul_ceilDiv hs
    simpa [listRequests, Nat.ceilDiv_eq_add_pred_div, smul_eq_mul] using h1
  · have h1 := Nat.div_mul_le_self ((queryResults f cfg l).length + pageSize - 1) pageSize
    simp only [listRequests]
    omega
  · intro r hr
    simp only [listRequests] at hr
    exact (List.perm_insertionSort _ _).subset
      (List.mem_of_mem_drop (List.mem_of_mem_take hr))
  · intro h25
    have hm : (queryResults f cfg l).length = 25 := hlen.trans h25
    refine ⟨?_, by simpa [listRequests] using hm, ?_⟩
    · simp [listRequests, List.length_take, List.length_drop, hm]
    · simp [listRequests, hm]

/-- C4 witness: over the concrete 25-record snapshot with no filters,
page 2 of size 10 returns 10 records, `total = 25`, `total_pages = 3`. -/
theorem listing_pagination_spec_witness :
    (listRequests MapFilters.empty ⟨SortBy.created_at, SortOrder.desc⟩ 2 10
        sample25).requests.length = 10 ∧
    (listRequests MapFilters.empty ⟨SortBy.created_at, SortOrder.desc⟩ 2 10
        sample25).total = 25 ∧
    (listRequests MapFilters.empty ⟨SortBy.created_at, SortOrder.desc⟩ 2 10
        sample25).total_pages = 3 :=
  (listing_pagination_spec MapFilters.empty ⟨SortBy.created_at, SortOrder.desc⟩
    2 10 sample25 (by decide)).2.2.2.2.2 (by decide)

/-- C5 (confirmed): with empty history the Duplicate/Spam Filter accepts
every candidate, and when the history holds an accepted submission with
an identical contact phone, coordinates within the proximity threshold,
and age within the duplicate window, the candidate is rejected as a
duplicate of some stored request. -/
theorem duplicate_filter_gate (eps window now : ℚ) (cand : Candidate)
    (history : List StoredSubmission) (prior : StoredSubmission) :
    duplicateFilter eps window now [] cand = FilterDecision.accept ∧
    (prior ∈ history →
      prior.contact_phone = cand.contact_phone →
      |cand.latitude - prior.latitude| ≤ eps →
      |cand.longitude - prior.longitude| ≤ eps →
      now - prior.created_at ≤ window →
      ∃ j, duplicateFilter eps window now history cand =
        FilterDecision.duplicateRejected j) := by
  constructor
  · rfl
  · intro hmem hphone hlat hlng hwin
    have hdup : isNearDuplicate eps window now cand prior = true := by
      simp [isNearDuplicate, hphone, hlat, hlng, hwin]
    have hsome : (history.find? (isNearDuplicate eps window now cand)).isSome :=
      List.find?_isSome.mpr ⟨prior, hmem, hdup⟩
    rcases hfind : history.find? (isNearDuplicate eps window now cand) with _ | p
    · rw [hfind] at hsome
      simp at hsome
    · exact ⟨p.id, by simp [duplicateFilter, hfind]⟩

/-- C5 witness: the concrete candidate sharing the stored submission's
phone, within `1/1000` of its coordinates and inside a 24-unit window, is
rejected as a duplicate; the same candidate is accepted on empty
history. -/
theorem duplicate_filter_gate_witness :
    duplicateFilter (1 / 1000) 24 1010 [] sampleDupCandidate =
      FilterDecision.accept ∧
    (∃ j, duplicateFilter (1 / 1000) 24 1010 [samplePriorSubmission]
      sampleDupCandidate = FilterDecision.duplicateRejected j) :=
  ⟨(duplicate_filter_gate (1 / 1000) 24 1010 sampleDupCandidate
      [samplePriorSubmission] samplePriorSubmission).1,
    (duplicate_filter_gate (1 / 1000) 24 1010 sampleDupCandidate
      [samplePriorSubmission] samplePriorSubmission).2
      (List.mem_singleton.mpr rfl) rfl (by norm_num [abs_le, sampleDupCandidate, samplePriorSubmission])
      (by norm_num [abs_le, sampleDupCandidate, samplePriorSubmission])
      (by norm_num [samplePriorSubmission])⟩
